import Mathlib

/-!
Verification of the realtime-geoinsight-api core against its specification.

The Python services are shallowly embedded: coordinates and speeds are
rationals, timestamps are integers (epoch seconds), database tables are
lists of records, Redis sorted sets are finite sets of integer scores, and
each service method becomes a pure Lean function whose structure mirrors
the Python control flow.
-/

namespace GeoAPI

/-- Event type string used by the monitoring service for enter transitions. -/
def enterType : String := "enter"

/-- Event type string used by the monitoring service for exit transitions. -/
def exitType : String := "exit"

/-- A WGS84 point. Longitude and latitude are exact coordinates on an
integer grid (e.g. hundredths of a degree), so that the polygon geometry
is computed in exact arithmetic. -/
structure GeoPoint where
  lon : Int
  lat : Int
deriving DecidableEq, Repr

/-- The closed ring of a polygon: the list of vertices, with the closing
vertex equal to the first (as required by the data model). Consecutive
pairs of the list are the edges. -/
def polygonEdges (ring : List GeoPoint) : List (GeoPoint × GeoPoint) :=
  ring.zip ring.tail

/-- Does point p lie on the closed segment from a to b? (Exact
collinearity via cross product plus bounding-box test.) -/
def onSegment (a b p : GeoPoint) : Bool :=
  ((b.lon - a.lon) * (p.lat - a.lat) == (b.lat - a.lat) * (p.lon - a.lon))
    && decide ((a.lon ≤ p.lon ∧ p.lon ≤ b.lon) ∨ (b.lon ≤ p.lon ∧ p.lon ≤ a.lon))
    && decide ((a.lat ≤ p.lat ∧ p.lat ≤ b.lat) ∨ (b.lat ≤ p.lat ∧ p.lat ≤ a.lat))

/-- Does point p lie on the boundary of the polygon ring? -/
def onBoundary (ring : List GeoPoint) (p : GeoPoint) : Bool :=
  (polygonEdges ring).any (fun e => onSegment e.1 e.2 p)

/-- One edge of the even-odd ray cast: does the horizontal ray from p to
the east cross the edge (a, b)? Half-open rule on the latitudes; the
intersection comparison p.lon < a.lon + (b.lon - a.lon)·(p.lat - a.lat)/
(b.lat - a.lat) is written division-free in exact arithmetic. -/
def edgeCrosses (a b p : GeoPoint) : Bool :=
  (decide (p.lat < a.lat) != decide (p.lat < b.lat))
    && (if a.lat < b.lat then
          decide ((p.lon - a.lon) * (b.lat - a.lat) < (b.lon - a.lon) * (p.lat - a.lat))
        else
          decide ((b.lon - a.lon) * (p.lat - a.lat) < (p.lon - a.lon) * (b.lat - a.lat)))

/-- Number of edges crossed by the eastward ray from p. -/
def crossingNumber (ring : List GeoPoint) (p : GeoPoint) : Nat :=
  (polygonEdges ring).countP (fun e => edgeCrosses e.1 e.2 p)

/-- Point-in-interior test by even-odd ray casting. -/
def inInterior (ring : List GeoPoint) (p : GeoPoint) : Bool :=
  crossingNumber ring p % 2 == 1

/-- Embedding of the PostGIS/GEOS function ST_Contains(polygon, point) that
geofence_service.py delegates containment to. Per the OGC simple-features
definition implemented by PostGIS, a polygon contains a point iff the point
lies in the polygon's interior; a point exactly on the boundary is NOT
contained. -/
def stContains (ring : List GeoPoint) (p : GeoPoint) : Bool :=
  !onBoundary ring p && inInterior ring p

/-- A row of the geofences table (id, owner, polygon ring, active flag). -/
structure Geofence where
  id : String
  user_id : String
  geometry : List GeoPoint
  is_active : Bool
deriving DecidableEq, Repr

/-- GeofenceService.get_geofences_containing_point: all geofences of the
user that are active and whose geometry ST_Contains the query point. -/
def getGeofencesContainingPoint (db : List Geofence) (userId : String)
    (p : GeoPoint) : List Geofence :=
  db.filter (fun g => g.user_id == userId && g.is_active && stContains g.geometry p)

/-- A geofence transition event as built by the monitoring service. -/
structure GeofenceEvent where
  device_id : String
  geofence_id : String
  event_type : String
  location : GeoPoint
  timestamp : Int
deriving DecidableEq, Repr

/-- Build one event, mirroring the GeofenceEvent constructor calls in
monitoring_service.py. -/
def mkGeofenceEvent (eventType deviceId geofenceId : String) (p : GeoPoint)
    (now : Int) : GeofenceEvent :=
  { device_id := deviceId, geofence_id := geofenceId, event_type := eventType,
    location := p, timestamp := now }

/-- The set current_geofence_ids computed by process_location_update: ids of
the user's active geofences containing the point, collected into a set. -/
def currentIdsOf (db : List Geofence) (userId : String) (p : GeoPoint) :
    Finset String :=
  ((getGeofencesContainingPoint db userId p).map (fun g => g.id)).toFinset

/-- GeofenceMonitoringService.process_location_update: computes the entered
and exited sets from the per-device membership state dictionary, emits one
enter event per entered id and one exit event per exited id, and stores the
new membership set for the device. Returns the emitted events and the
updated state map. -/
def processLocationUpdate (db : List Geofence) (states : String → Finset String)
    (deviceId userId : String) (p : GeoPoint) (now : Int) :
    List GeofenceEvent × (String → Finset String) :=
  let currentIds := currentIdsOf db userId p
  let previousIds := states deviceId
  let entered := currentIds \ previousIds
  let exited := previousIds \ currentIds
  let events :=
    (entered.sort (· ≤ ·)).map (fun gid => mkGeofenceEvent enterType deviceId gid p now)
      ++ (exited.sort (· ≤ ·)).map (fun gid => mkGeofenceEvent exitType deviceId gid p now)
  (events, fun d => if d = deviceId then currentIds else states d)

/-- A location update body as consumed by DeviceService (latitude,
longitude, optional timestamp and telemetry). -/
structure LocationUpdate where
  latitude : Int
  longitude : Int
  timestamp : Option Int
  speed : Option ℚ
  heading : Option ℚ
  accuracy : Option ℚ
  altitude : Option ℚ
deriving DecidableEq, Repr

/-- Python `location_data.timestamp or datetime.utcnow()`. -/
def effectiveTime (upd : LocationUpdate) (now : Int) : Int :=
  upd.timestamp.getD now

/-- A row of the trajectories table. total_distance, avg_speed and
max_speed are nullable Float columns (here Option rationals). -/
structure Trajectory where
  id : Nat
  device_id : String
  start_time : Int
  end_time : Int
  point_count : Nat
  total_distance : Option ℚ
  avg_speed : Option ℚ
  max_speed : Option ℚ
deriving DecidableEq, Repr

/-- A row of the trajectory_points table. -/
structure TrajectoryPoint where
  trajectory_id : Nat
  longitude : Int
  latitude : Int
  timestamp : Int
  speed : Option ℚ
  heading : Option ℚ
  accuracy : Option ℚ
  altitude : Option ℚ
deriving DecidableEq, Repr

/-- Persisted trajectory state: the trajectories and trajectory_points
tables, and the next fresh trajectory id. -/
structure TrajStore where
  trajectories : List Trajectory
  points : List TrajectoryPoint
  next_id : Nat
deriving DecidableEq, Repr

/-- The WHERE clause of the open-trajectory query in _add_trajectory_point:
the trajectory belongs to the device and end_time >= current_time - 1 hour. -/
def isOpenFor (deviceId : String) (t : Int) (tr : Trajectory) : Bool :=
  tr.device_id == deviceId && decide (t - 3600 ≤ tr.end_time)

/-- ORDER BY end_time DESC LIMIT 1: pick the trajectory with the greatest
end_time (first among equals). -/
def pickLatest : List Trajectory → Option Trajectory
  | [] => none
  | tr :: rest =>
    match pickLatest rest with
    | none => some tr
    | some best => if best.end_time > tr.end_time then some best else some tr

/-- The open-trajectory lookup of _add_trajectory_point. -/
def selectTrajectory (trs : List Trajectory) (deviceId : String) (t : Int) :
    Option Trajectory :=
  pickLatest (trs.filter (isOpenFor deviceId t))

/-- Python truthiness of an optional float: None and 0.0 are falsy. -/
def truthy : Option ℚ → Bool
  | none => false
  | some q => q != 0

/-- The max-speed update in _add_trajectory_point:
`if location_data.speed: if not trajectory.max_speed or speed > max_speed`. -/
def updMaxSpeed (cur sp : Option ℚ) : Option ℚ :=
  if truthy sp then
    if !truthy cur || decide (cur.getD 0 < sp.getD 0) then sp else cur
  else cur

/-- The TrajectoryPoint row constructed in _add_trajectory_point. -/
def mkTrajectoryPoint (trajId : Nat) (upd : LocationUpdate) (t : Int) :
    TrajectoryPoint :=
  { trajectory_id := trajId, longitude := upd.longitude, latitude := upd.latitude,
    timestamp := t, speed := upd.speed, heading := upd.heading,
    accuracy := upd.accuracy, altitude := upd.altitude }

/-- The aggregate update performed on the chosen trajectory in
_add_trajectory_point: end_time := current_time, point_count += 1, and the
max-speed update. No other column is touched. -/
def applyAppend (tr : Trajectory) (upd : LocationUpdate) (t : Int) : Trajectory :=
  { tr with end_time := t, point_count := tr.point_count + 1,
            max_speed := updMaxSpeed tr.max_speed upd.speed }

/-- DeviceService._add_trajectory_point: find an open trajectory (within
the last hour); create a fresh one with start_time = end_time = current_time
and point_count = 0 when none exists; insert the point row; update the
trajectory aggregates. -/
def addTrajectoryPoint (st : TrajStore) (deviceId : String)
    (upd : LocationUpdate) (now : Int) : TrajStore :=
  let t := effectiveTime upd now
  match selectTrajectory st.trajectories deviceId t with
  | some tr =>
    { st with
      trajectories :=
        st.trajectories.map (fun x => if x.id = tr.id then applyAppend x upd t else x),
      points := st.points ++ [mkTrajectoryPoint tr.id upd t] }
  | none =>
    let fresh : Trajectory :=
      { id := st.next_id, device_id := deviceId, start_time := t, end_time := t,
        point_count := 0, total_distance := none, avg_speed := none,
        max_speed := none }
    { trajectories := st.trajectories ++ [applyAppend fresh upd t],
      points := st.points ++ [mkTrajectoryPoint st.next_id upd t],
      next_id := st.next_id + 1 }

/-- A row of the devices table (the fields touched by location updates). -/
structure Device where
  id : String
  user_id : String
  device_name : String
  last_location : Option GeoPoint
  last_seen : Option Int
  updated_at : Option Int
deriving DecidableEq, Repr

/-- DeviceService.get_device_by_id: the device with this id owned by the
user, if any. -/
def getDeviceById (devices : List Device) (deviceId userId : String) :
    Option Device :=
  (devices.filter (fun d => d.id == deviceId && d.user_id == userId)).head?

/-- DeviceService.update_device_location: resolve the device (ownership
check); unconditionally set last_location, last_seen := timestamp-or-now and
updated_at; append a trajectory point. There is no comparison of the update
timestamp with the stored last_seen. Returns none only when the device is
not found. -/
def updateDeviceLocation (devices : List Device) (st : TrajStore)
    (deviceId userId : String) (upd : LocationUpdate) (now : Int) :
    Option (Device × TrajStore) :=
  match getDeviceById devices deviceId userId with
  | none => none
  | some dev =>
    let dev1 : Device :=
      { dev with
        last_location := some { lon := upd.longitude, lat := upd.latitude },
        last_seen := some (effectiveTime upd now),
        updated_at := some now }
    some (dev1, addTrajectoryPoint st deviceId upd now)

/-- Outcome of one webhook POST attempt as distinguished by the
try/except structure of WebhookService.send_webhook: an HTTP response with
a status code, a transport error (httpx.RequestError / TimeoutException),
or any other unexpected exception. -/
inductive WebhookOutcome where
  | httpStatus (code : Nat)
  | requestError
  | unexpectedError
deriving DecidableEq, Repr

/-- Result of send_webhook: the event type was not subscribed (skip), the
delivery succeeded, a retry was scheduled with a delay, or the delivery was
marked failed. -/
inductive SendResult where
  | skipped
  | delivered
  | retryScheduled (delaySeconds : Nat) (nextRetryCount : Nat)
  | failed
deriving DecidableEq, Repr

/-- The status codes send_webhook counts as success. -/
def successStatusCodes : List Nat := [200, 201, 202, 204]

/-- The backoff schedule self.retry_delays of WebhookService. -/
def retryDelays : List Nat := [1, 5, 15]

/-- self.max_retries of WebhookService. -/
def maxRetries : Nat := 3

/-- WebhookService._handle_retry: schedule a retry with delay
retry_delays[min(retry_count, len-1)] while retry_count < max_retries,
otherwise mark the delivery failed. -/
def handleRetry (retryCount : Nat) : SendResult :=
  if retryCount < maxRetries then
    SendResult.retryScheduled (retryDelays.getD (min retryCount (retryDelays.length - 1)) 0)
      (retryCount + 1)
  else SendResult.failed

/-- WebhookService.send_webhook for one attempt: skip unsubscribed event
types; succeed on status 200/201/202/204; retry via _handle_retry on any
other status or transport error; mark failed immediately on an unexpected
exception. -/
def sendWebhook (configuredEvents : List String) (eventType : String)
    (outcome : WebhookOutcome) (retryCount : Nat) : SendResult :=
  if eventType ∉ configuredEvents then SendResult.skipped
  else
    match outcome with
    | WebhookOutcome.httpStatus code =>
      if code ∈ successStatusCodes then SendResult.delivered
      else handleRetry retryCount
    | WebhookOutcome.requestError => handleRetry retryCount
    | WebhookOutcome.unexpectedError => SendResult.failed

/-- The info dictionary returned by RateLimiter.is_allowed and surfaced in
rate-limit headers. -/
structure RLInfo where
  limit : Int
  remaining : Int
  reset : Int
  retry_after : Int
deriving DecidableEq, Repr

/-- Result of one RateLimiter.is_allowed call: the decision, the info
dictionary, and the Redis sorted set after the call. -/
structure RedisLimiterResult where
  allowed : Bool
  info : RLInfo
  state : Finset Int
deriving DecidableEq

/-- The window size (seconds) of RateLimiter. -/
def windowSize : Int := 60

/-- Redis ZREMRANGEBYSCORE key lo hi on the sorted set of scores. -/
def zremRangeByScore (lo hi : Int) (s : Finset Int) : Finset Int :=
  s.filter (fun t => ¬(lo ≤ t ∧ t ≤ hi))

/-- RateLimiter.is_allowed over the Redis sorted set at key
rate_limit:identifier. The member added by zadd is str(now), so the set
holds at most one entry per integer second: it is modelled as a finite set
of scores. Prune scores in [0, now-60], count, deny when the count has
reached the limit (with retry_after computed from the oldest score), else
record the current second and allow. -/
def isAllowed (requestsPerMinute : Int) (now : Int) (s : Finset Int) :
    RedisLimiterResult :=
  let windowStart := now - windowSize
  let s1 := zremRangeByScore 0 windowStart s
  let currentRequests : Int := s1.card
  if requestsPerMinute ≤ currentRequests then
    let reset := (WithBot.unbot' now s1.min) + windowSize
    { allowed := false,
      info := { limit := requestsPerMinute, remaining := 0, reset := reset,
                retry_after := reset - now },
      state := s1 }
  else
    { allowed := true,
      info := { limit := requestsPerMinute,
                remaining := max 0 (requestsPerMinute - currentRequests - 1),
                reset := now + windowSize, retry_after := 0 },
      state := insert now s1 }

/-- The sequence of allow/deny decisions produced by feeding a list of
request times through RateLimiter.is_allowed, threading the sorted set. -/
def runRedisDecisions (requestsPerMinute : Int) :
    Finset Int → List Int → List Bool
  | _, [] => []
  | s, now :: rest =>
    let r := isAllowed requestsPerMinute now s
    r.allowed :: runRedisDecisions requestsPerMinute r.state rest

/-- Modelled from the spec (section 4.4): one step of a single sliding
window log. Prune entries older than the window start, admit iff the
current count is below the limit, and log the arrival second on admission.
Used to compare the code's admission decisions with the specified
sliding-window semantics. -/
def slidingWindowStep (limitPerMinute : Int) (now : Int) (log : Finset Int) :
    Bool × Finset Int :=
  let pruned := log.filter (fun t => now - 60 < t)
  if (pruned.card : Int) < limitPerMinute then (true, insert now pruned)
  else (false, pruned)

/-- Decision trace of the spec's single sliding window. -/
def runSlidingWindowDecisions (limitPerMinute : Int) :
    Finset Int → List Int → List Bool
  | _, [] => []
  | log, now :: rest =>
    let r := slidingWindowStep limitPerMinute now log
    r.1 :: runSlidingWindowDecisions limitPerMinute r.2 rest

/-- Per-tier request limits (the TIER_LIMITS table of app/utils/analytics.py,
which matches the tier table of the spec). -/
structure TierLimits where
  requests_per_minute : Int
  requests_per_hour : Int
  requests_per_day : Int
deriving DecidableEq, Repr

/-- TIER_LIMITS for the free tier. -/
def freeTierLimits : TierLimits :=
  { requests_per_minute := 60, requests_per_hour := 1000, requests_per_day := 10000 }

/-- TIER_LIMITS for the basic tier. -/
def basicTierLimits : TierLimits :=
  { requests_per_minute := 300, requests_per_hour := 10000, requests_per_day := 100000 }

/-- TIER_LIMITS for the professional tier. -/
def professionalTierLimits : TierLimits :=
  { requests_per_minute := 1000, requests_per_hour := 50000, requests_per_day := 1000000 }

/-- TIER_LIMITS for the enterprise tier. -/
def enterpriseTierLimits : TierLimits :=
  { requests_per_minute := 5000, requests_per_hour := 200000, requests_per_day := 5000000 }

/-- Modelled from the spec (section 4.4): one step of the claimed admission
control with three concurrent sliding windows (60 s, 3600 s, 86400 s), each
bounded by the tier's limit; prune each window, admit only if the count is
below every window's limit. Written from the spec's words to be compared
with the admission path the code actually runs. -/
def threeWindowStep (tier : TierLimits) (now : Int) (log : Finset Int) :
    Bool × Finset Int :=
  let minuteCount : Int := (log.filter (fun t => now - 60 < t)).card
  let hourCount : Int := (log.filter (fun t => now - 3600 < t)).card
  let dayCount : Int := (log.filter (fun t => now - 86400 < t)).card
  if minuteCount < tier.requests_per_minute ∧ hourCount < tier.requests_per_hour
      ∧ dayCount < tier.requests_per_day then
    (true, insert now log)
  else (false, log)

/-- Decision trace of the spec's three-window tier policy. -/
def runThreeWindowDecisions (tier : TierLimits) :
    Finset Int → List Int → List Bool
  | _, [] => []
  | log, now :: rest =>
    let r := threeWindowStep tier now log
    r.1 :: runThreeWindowDecisions tier r.2 rest

/-- check_rate_limit of app/utils/rate_limiter.py, abstracted over the
limiter call: when evaluating the limiter raises (Except.error), the
request is allowed with the full limit reported as remaining; when the
limiter answers, a denial raises HTTP 429 (Except.error carrying the info)
and an allowance returns the info. -/
def checkRateLimit (requestsPerMinute : Int) (now : Int)
    (limiterOutcome : Except Unit (Bool × RLInfo)) : Except RLInfo RLInfo :=
  match limiterOutcome with
  | Except.error _ =>
    Except.ok { limit := requestsPerMinute, remaining := requestsPerMinute,
                reset := now + 60, retry_after := 0 }
  | Except.ok (allowed, info) =>
    if allowed then Except.ok info else Except.error info

/-- The invariant relating the Redis sorted set of the code's limiter to
the log of the spec's single sliding window, after both processed the same
monotone request sequence whose times lie in [0, T]: the states coincide
and hold only timestamps from that range. -/
def LimiterInv (st log : Finset Int) (T : Int) : Prop :=
  0 ≤ T ∧ st = log ∧ ∀ t ∈ log, 0 ≤ t ∧ t ≤ T

/-- A user id used in concrete evaluations. -/
def userOne : String := "user-1"

/-- A device id used in concrete evaluations. -/
def devOne : String := "dev-1"

/-- The square geofence from the end-to-end scenario of the spec —
ring (13.3,52.5), (13.3,52.55), (13.45,52.55), (13.45,52.5), closed —
on the hundredths-of-a-degree grid. -/
def berlinSquare : List GeoPoint :=
  [{ lon := 1330, lat := 5250 }, { lon := 1330, lat := 5255 },
   { lon := 1345, lat := 5255 }, { lon := 1345, lat := 5250 },
   { lon := 1330, lat := 5250 }]

/-- An active geofence over the square, owned by userOne. -/
def berlinGeofence : Geofence :=
  { id := "gf-1", user_id := userOne, geometry := berlinSquare, is_active := true }

/-- A point exactly on the western edge of the square (lon 13.3,
lat 52.52 strictly between 52.5 and 52.55), on the same grid. -/
def boundaryPt : GeoPoint := { lon := 1330, lat := 5252 }

/-- An empty trajectory store. -/
def emptyStore : TrajStore := { trajectories := [], points := [], next_id := 0 }

/-- A device whose stored last_seen is second 100. -/
def c2dev : Device :=
  { id := devOne, user_id := userOne, device_name := "phone",
    last_location := none, last_seen := some 100, updated_at := none }

/-- A location update timestamped at second 50, strictly earlier than
c2dev.last_seen. -/
def c2upd : LocationUpdate :=
  { latitude := 1, longitude := 2, timestamp := some 50, speed := none,
    heading := none, accuracy := none, altitude := none }

/-- First point for the distance counterexample: (lat 0, lon 0) at t = 0. -/
def c3upd1 : LocationUpdate :=
  { latitude := 0, longitude := 0, timestamp := some 0, speed := none,
    heading := none, accuracy := none, altitude := none }

/-- Second point, one degree of longitude away (haversine distance about
111 km), sixty seconds later. -/
def c3upd2 : LocationUpdate :=
  { latitude := 0, longitude := 1, timestamp := some 60, speed := none,
    heading := none, accuracy := none, altitude := none }

/-- Store after ingesting the two distinct points for one device. -/
def c3store : TrajStore :=
  addTrajectoryPoint (addTrajectoryPoint emptyStore devOne c3upd1 0) devOne c3upd2 60

/-- The trajectory created by ingesting c3upd1 into the empty store. -/
def c3firstTraj : Trajectory :=
  { id := 0, device_id := devOne, start_time := 0, end_time := 0,
    point_count := 1, total_distance := none, avg_speed := none, max_speed := none }

/-- A location update replayed identically (same point, same timestamp). -/
def c4upd : LocationUpdate :=
  { latitude := 10, longitude := 20, timestamp := some 0, speed := none,
    heading := none, accuracy := none, altitude := none }

/-- An open trajectory of devOne with the greatest end_time (second 500). -/
def demoTraj : Trajectory :=
  { id := 1, device_id := devOne, start_time := 0, end_time := 500,
    point_count := 3, total_distance := none, avg_speed := none, max_speed := none }

/-- A second open trajectory of devOne with smaller end_time (second 400). -/
def demoTraj2 : Trajectory :=
  { id := 2, device_id := devOne, start_time := 0, end_time := 400,
    point_count := 2, total_distance := none, avg_speed := none, max_speed := none }

/-- A store holding both open trajectories. -/
def demoStore : TrajStore :=
  { trajectories := [demoTraj2, demoTraj], points := [], next_id := 3 }

/-- An update at second 600, within the gap threshold of both trajectories. -/
def demoUpd : LocationUpdate :=
  { latitude := 5, longitude := 6, timestamp := some 600, speed := some 4,
    heading := none, accuracy := none, altitude := none }

/-- Sixty requests at seconds 0..59 followed by a sixty-first request at
second 59: fewer than 300 requests in every window of the basic tier. -/
def c6History : List Int := ((List.range 60).map (fun n => (n : Int))) ++ [59]

/-- Sixty-one requests all arriving within the same second. -/
def c7History : List Int := List.replicate 61 1000

/-- Helper: a nodup list counts an element at most once. -/
theorem countP_beq_of_nodup {l : List String} (hl : l.Nodup) (g : String) :
    l.countP (fun x => x == g) = if g ∈ l then 1 else 0 := by
  induction l with
  | nil => simp
  | cons a l ih =>
    rcases List.nodup_cons.mp hl with ⟨ha, hl2⟩
    rw [List.countP_cons, ih hl2]
    by_cases hag : g = a
    · subst hag
      simp [ha]
    · have hf : (a == g) = false := by
        cases h : a == g
        · rfl
        · exact absurd (eq_of_beq h) (fun hh => hag hh.symm)
      simp [hf, hag]

/-- Helper: counting events of a given type and geofence id among the
events mapped from a membership set. -/
theorem countP_event_map (ty tyq dId g : String) (p : GeoPoint) (now : Int)
    (s : Finset String) :
    ((s.sort (· ≤ ·)).map (fun gid => mkGeofenceEvent ty dId gid p now)).countP
        (fun e => e.event_type == tyq && e.geofence_id == g) =
      if ty = tyq ∧ g ∈ s then 1 else 0 := by
  rw [List.countP_map]
  by_cases hty : ty = tyq
  · subst hty
    have hpred : ((fun e => e.event_type == ty && e.geofence_id == g) ∘
        (fun gid => mkGeofenceEvent ty dId gid p now)) = fun x => x == g := by
      funext gid
      simp [mkGeofenceEvent, Function.comp]
    rw [hpred, countP_beq_of_nodup (Finset.sort_nodup _ s) g]
    by_cases hg : g ∈ s
    · rw [if_pos ((Finset.mem_sort _).mpr hg), if_pos ⟨rfl, hg⟩]
    · rw [if_neg (fun hc => hg ((Finset.mem_sort _).mp hc)), if_neg (by tauto)]
  · have hf : (ty == tyq) = false := by
      cases h : ty == tyq
      · rfl
      · exact absurd (eq_of_beq h) hty
    have hpred : ((fun e => e.event_type == tyq && e.geofence_id == g) ∘
        (fun gid => mkGeofenceEvent ty dId gid p now)) = fun _ => false := by
      funext gid
      simp [mkGeofenceEvent, Function.comp, hf]
    rw [hpred, if_neg (by tauto)]
    exact congrFun List.countP_false _

/-- C10: when evaluating the rate limiter raises, check_rate_limit admits
the request and reports the full limit as remaining — rate limiting is
fail-open, and the errored limiter never causes a rejection. -/
theorem c10_fail_open (requestsPerMinute now : Int) :
    checkRateLimit requestsPerMinute now (Except.error ()) =
      Except.ok { limit := requestsPerMinute, remaining := requestsPerMinute,
                  reset := now + 60, retry_after := 0 } := rfl

/-- C7: evaluation of the code at the failing input. With the configured
limit of 60 per minute, sixty-one requests all arriving at the same epoch
second are ALL admitted: zadd stores the member str(now), so same-second
requests collapse into a single sorted-set entry and the count never
reaches the limit. The claim says the sixty-first request is denied. -/
theorem c7_same_second_burst_admitted :
    runRedisDecisions 60 ∅ c7History = List.replicate 61 true := by decide

/-- C8 counterexample: an unexpected (non-transport) exception during the
first delivery attempt marks the delivery failed immediately, with no
retry scheduled — the claim says any non-success outcome schedules a
retry with delay 1 s. -/
theorem c8_counterexample :
    sendWebhook [enterType] enterType WebhookOutcome.unexpectedError 0 =
      SendResult.failed := by decide

/-- C8 amended: for a subscribed event type, an attempt is a success iff
the HTTP status is 200/201/202/204; a non-success status or a transport
error schedules a retry with delays 1 s, 5 s, 15 s while fewer than three
retries have happened and marks the delivery failed afterwards; an
unexpected exception marks the delivery failed immediately. -/
theorem c8_status_retry_policy (configuredEvents : List String)
    (eventType : String) (code rc : Nat) (hsub : eventType ∈ configuredEvents) :
    (sendWebhook configuredEvents eventType (WebhookOutcome.httpStatus code) rc =
        SendResult.delivered ↔ code ∈ successStatusCodes) ∧
    (code ∉ successStatusCodes → rc < maxRetries →
      sendWebhook configuredEvents eventType (WebhookOutcome.httpStatus code) rc =
        SendResult.retryScheduled (retryDelays.getD (min rc 2) 0) (rc + 1)) ∧
    (code ∉ successStatusCodes → maxRetries ≤ rc →
      sendWebhook configuredEvents eventType (WebhookOutcome.httpStatus code) rc =
        SendResult.failed) ∧
    (rc < maxRetries →
      sendWebhook configuredEvents eventType WebhookOutcome.requestError rc =
        SendResult.retryScheduled (retryDelays.getD (min rc 2) 0) (rc + 1)) ∧
    (maxRetries ≤ rc →
      sendWebhook configuredEvents eventType WebhookOutcome.requestError rc =
        SendResult.failed) ∧
    sendWebhook configuredEvents eventType WebhookOutcome.unexpectedError rc =
      SendResult.failed ∧
    retryDelays = [1, 5, 15] ∧ maxRetries = 3 := by
  have hs : ¬eventType ∉ configuredEvents := fun h => h hsub
  refine ⟨?_, ?_, ?_, ?_, ?_, ?_, rfl, rfl⟩
  · by_cases hc : code ∈ successStatusCodes
    · simp [sendWebhook, hs, hc]
    · simp only [sendWebhook, if_neg hs, if_neg hc, handleRetry]
      constructor
      · intro h
        by_cases hr : rc < maxRetries <;> simp [hr] at h
      · intro h
        exact absurd h hc
  · intro hc hr
    simp [sendWebhook, hs, hc, handleRetry, hr, retryDelays]
  · intro hc hr
    simp [sendWebhook, hs, hc, handleRetry, Nat.not_lt.mpr hr]
  · intro hr
    simp [sendWebhook, hs, handleRetry, hr, retryDelays]
  · intro hr
    simp [sendWebhook, hs, handleRetry, Nat.not_lt.mpr hr]
  · simp [sendWebhook, hs]

/-- Witness for c8_status_retry_policy: a 503 on the first attempt
schedules the first retry with delay retry_delays[0]. -/
theorem c8_policy_witness :
    sendWebhook [enterType] enterType (WebhookOutcome.httpStatus 503) 0 =
      SendResult.retryScheduled (retryDelays.getD (min 0 2) 0) 1 :=
  ((c8_status_retry_policy [enterType] enterType 503 0 (by decide)).2.1)
    (by decide) (by decide)

/-- C2 counterexample: the stored last_seen is second 100, the update is
timestamped second 50 (strictly earlier), yet update_device_location
accepts the update and overwrites last_seen with 50 — no OUT_OF_ORDER
rejection, state changed, last_seen decreased. -/
theorem c2_counterexample :
    c2dev.last_seen = some 100 ∧
    (updateDeviceLocation [c2dev] emptyStore devOne userOne c2upd 200).map
        (fun r => r.1.last_seen) = some (some 50) := by decide

/-- C2 amended: update_device_location performs no ordering check. For any
found device, the update is accepted and last_seen is unconditionally set
to the update timestamp (or now when absent), even when earlier than the
stored last_seen; a trajectory point is appended as usual. -/
theorem c2_no_ordering_check (devices : List Device) (st : TrajStore)
    (deviceId userId : String) (upd : LocationUpdate) (now : Int) (dev : Device)
    (h : getDeviceById devices deviceId userId = some dev) :
    updateDeviceLocation devices st deviceId userId upd now =
      some ({ dev with
                last_location := some { lon := upd.longitude, lat := upd.latitude },
                last_seen := some (effectiveTime upd now),
                updated_at := some now },
            addTrajectoryPoint st deviceId upd now) := by
  simp [updateDeviceLocation, h]

/-- Witness for c2_no_ordering_check at the concrete out-of-order input. -/
theorem c2_no_ordering_witness :
    updateDeviceLocation [c2dev] emptyStore devOne userOne c2upd 200 =
      some ({ c2dev with
                last_location := some { lon := c2upd.longitude, lat := c2upd.latitude },
                last_seen := some (effectiveTime c2upd 200),
                updated_at := some 200 },
            addTrajectoryPoint emptyStore devOne c2upd 200) :=
  c2_no_ordering_check [c2dev] emptyStore devOne userOne c2upd 200 c2dev (by decide)

/-- C5 counterexample: the boundary point lies on an edge of the square,
yet ST_Contains reports it outside and the geofences-containing-point
query excludes the active geofence — the claim says boundary points are
inside and the geofence is included. -/
theorem c5_counterexample :
    onBoundary berlinSquare boundaryPt = true ∧
    stContains berlinSquare boundaryPt = false ∧
    getGeofencesContainingPoint [berlinGeofence] userOne boundaryPt = [] := by decide

/-- C5 amended: a query point on the boundary of a geofence polygon is
reported NOT contained (ST_Contains holds only for interior points), so
the geofence is excluded from the geofences-containing-point result. -/
theorem c5_boundary_not_contained (gfs : List Geofence) (userId : String)
    (p : GeoPoint) (gf : Geofence) (hb : onBoundary gf.geometry p = true) :
    stContains gf.geometry p = false ∧
    gf ∉ getGeofencesContainingPoint gfs userId p := by
  have h1 : stContains gf.geometry p = false := by simp [stContains, hb]
  refine ⟨h1, fun hmem => ?_⟩
  rw [getGeofencesContainingPoint, List.mem_filter] at hmem
  have h2 := hmem.2
  simp [h1] at h2

/-- Witness for c5_boundary_not_contained at the concrete edge point. -/
theorem c5_boundary_witness :
    stContains berlinGeofence.geometry boundaryPt = false ∧
    berlinGeofence ∉ getGeofencesContainingPoint [berlinGeofence] userOne boundaryPt :=
  c5_boundary_not_contained [berlinGeofence] userOne boundaryPt berlinGeofence (by decide)

/-- C3 counterexample: after appending two distinct points (about 111 km
apart, 60 s apart) the stored trajectory has total_distance and avg_speed
still NULL — the claim requires total_distance to equal the (positive)
haversine sum and avg_speed to equal distance over the 60 s duration. -/
theorem c3_counterexample :
    c3store.trajectories.map
        (fun tr => (tr.point_count, tr.total_distance, tr.avg_speed)) =
      [(2, none, none)] ∧
    c3store.points.length = 2 := by decide

/-- C3 amended: _add_trajectory_point never writes total_distance or
avg_speed: every trajectory in the store after an append either keeps the
values it had before, or is the freshly created trajectory whose
total_distance and avg_speed are NULL. -/
theorem c3_stats_not_updated (st : TrajStore) (d : String)
    (upd : LocationUpdate) (now : Int) :
    ∀ tr ∈ (addTrajectoryPoint st d upd now).trajectories,
      (∃ tr0 ∈ st.trajectories, tr0.id = tr.id ∧
        tr.total_distance = tr0.total_distance ∧ tr.avg_speed = tr0.avg_speed) ∨
      (tr.total_distance = none ∧ tr.avg_speed = none) := by
  intro tr htr
  rcases h : selectTrajectory st.trajectories d (effectiveTime upd now) with _ | tr0
  · rw [addTrajectoryPoint] at htr
    simp only [h] at htr
    rcases List.mem_append.mp htr with hmem | hmem
    · exact Or.inl ⟨tr, hmem, rfl, rfl, rfl⟩
    · have : tr = applyAppend
          { id := st.next_id, device_id := d, start_time := effectiveTime upd now,
            end_time := effectiveTime upd now, point_count := 0,
            total_distance := none, avg_speed := none, max_speed := none }
          upd (effectiveTime upd now) := List.mem_singleton.mp hmem
      subst this
      exact Or.inr ⟨rfl, rfl⟩
  · rw [addTrajectoryPoint] at htr
    simp only [h] at htr
    rcases List.mem_map.mp htr with ⟨x, hx, hxeq⟩
    by_cases hid : x.id = tr0.id
    · rw [if_pos hid] at hxeq
      subst hxeq
      exact Or.inl ⟨x, hx, rfl, rfl, rfl⟩
    · rw [if_neg hid] at hxeq
      subst hxeq
      exact Or.inl ⟨x, hx, rfl, rfl, rfl⟩

/-- Witness for c3_stats_not_updated: the trajectory created by the first
append has NULL distance statistics. -/
theorem c3_stats_witness :
    (∃ tr0 ∈ emptyStore.trajectories, tr0.id = c3firstTraj.id ∧
      c3firstTraj.total_distance = tr0.total_distance ∧
      c3firstTraj.avg_speed = tr0.avg_speed) ∨
    (c3firstTraj.total_distance = none ∧ c3firstTraj.avg_speed = none) :=
  c3_stats_not_updated emptyStore devOne c3upd1 0 c3firstTraj (by decide)

/-- C4 counterexample: replaying the identical (point, ts) pair does
insert a new trajectory point: after the replay the trajectory has two
persisted points and point_count 2 — the claim says zero new points. -/
theorem c4_counterexample :
    (addTrajectoryPoint emptyStore devOne c4upd 0).points.length = 1 ∧
    (addTrajectoryPoint (addTrajectoryPoint emptyStore devOne c4upd 0)
        devOne c4upd 0).points.length = 2 := by decide

/-- C4 amended: replaying an identical location for a device produces zero
additional enter/exit events (the membership diff is empty), but every
call of _add_trajectory_point inserts exactly one new trajectory point. -/
theorem c4_replay_behaviour (db : List Geofence) (states : String → Finset String)
    (d u : String) (p : GeoPoint) (n1 n2 : Int) (st : TrajStore) (dId : String)
    (upd : LocationUpdate) (now : Int) :
    (processLocationUpdate db (processLocationUpdate db states d u p n1).2 d u p n2).1
        = [] ∧
    (addTrajectoryPoint st dId upd now).points.length = st.points.length + 1 := by
  constructor
  · simp [processLocationUpdate, Finset.sdiff_self]
  · rcases h : selectTrajectory st.trajectories dId (effectiveTime upd now) with _ | tr <;>
      simp [addTrajectoryPoint, h]

/-- C1: the events emitted by process_location_update are exactly one
enter event per id in new_members minus current_members and one exit event
per id in current_members minus new_members; afterwards the stored
membership set equals new_members, the set of ids of the user's active
geofences containing the point. -/
theorem c1_membership_diff_events (db : List Geofence)
    (states : String → Finset String) (deviceId userId : String)
    (p : GeoPoint) (now : Int) :
    (∀ g : String,
      (processLocationUpdate db states deviceId userId p now).1.countP
          (fun e => e.event_type == enterType && e.geofence_id == g) =
        if g ∈ currentIdsOf db userId p \ states deviceId then 1 else 0) ∧
    (∀ g : String,
      (processLocationUpdate db states deviceId userId p now).1.countP
          (fun e => e.event_type == exitType && e.geofence_id == g) =
        if g ∈ states deviceId \ currentIdsOf db userId p then 1 else 0) ∧
    (processLocationUpdate db states deviceId userId p now).2 deviceId =
      currentIdsOf db userId p ∧
    (∀ g : String, g ∈ currentIdsOf db userId p ↔
      ∃ gf ∈ db, gf.id = g ∧ gf.user_id = userId ∧ gf.is_active = true ∧
        stContains gf.geometry p = true) := by
  refine ⟨?_, ?_, ?_, ?_⟩
  · intro g
    simp only [processLocationUpdate]
    rw [List.countP_append, countP_event_map, countP_event_map]
    have hne : ¬(exitType = enterType ∧
        g ∈ states deviceId \ currentIdsOf db userId p) := by
      rintro ⟨h, -⟩
      exact absurd h (by decide)
    rw [if_neg hne, Nat.add_zero]
    by_cases hg : g ∈ currentIdsOf db userId p \ states deviceId
    · rw [if_pos ⟨rfl, hg⟩, if_pos hg]
    · rw [if_neg (fun hh => hg hh.2), if_neg hg]
  · intro g
    simp only [processLocationUpdate]
    rw [List.countP_append, countP_event_map, countP_event_map]
    have hne : ¬(enterType = exitType ∧
        g ∈ currentIdsOf db userId p \ states deviceId) := by
      rintro ⟨h, -⟩
      exact absurd h (by decide)
    rw [if_neg hne, Nat.zero_add]
    by_cases hg : g ∈ states deviceId \ currentIdsOf db userId p
    · rw [if_pos ⟨rfl, hg⟩, if_pos hg]
    · rw [if_neg (fun hh => hg hh.2), if_neg hg]
  · simp [processLocationUpdate]
  · intro g
    simp only [currentIdsOf, getGeofencesContainingPoint, List.mem_toFinset,
      List.mem_map, List.mem_filter, Bool.and_eq_true, beq_iff_eq]
    constructor
    · rintro ⟨gf, ⟨hmem, ⟨hu, hact⟩, hst⟩, hid⟩
      exact ⟨gf, hmem, hid, hu, hact, hst⟩
    · rintro ⟨gf, hmem, hid, hu, hact, hst⟩
      exact ⟨gf, ⟨hmem, ⟨hu, hact⟩, hst⟩, hid⟩

/-- Helper: pickLatest returns none exactly on the empty list. -/
theorem pickLatest_eq_none {l : List Trajectory} :
    pickLatest l = none ↔ l = [] := by
  cases l with
  | nil => simp [pickLatest]
  | cons a r =>
    rcases hr : pickLatest r with _ | b
    · simp [pickLatest, hr]
    · simp only [pickLatest, hr]
      by_cases hb : b.end_time > a.end_time <;> simp [hb]

/-- Helper: pickLatest returns a member of the list. -/
theorem pickLatest_mem : ∀ {l : List Trajectory} {tr : Trajectory},
    pickLatest l = some tr → tr ∈ l := by
  intro l
  induction l with
  | nil => intro tr h; simp [pickLatest] at h
  | cons a r ih =>
    intro tr h
    rcases hr : pickLatest r with _ | b
    · simp only [pickLatest, hr] at h
      cases h
      exact List.mem_cons_self a r
    · simp only [pickLatest, hr] at h
      by_cases hb : b.end_time > a.end_time
      · rw [if_pos hb] at h
        cases h
        exact List.mem_cons_of_mem a (ih hr)
      · rw [if_neg hb] at h
        cases h
        exact List.mem_cons_self a r

/-- Helper: pickLatest returns an element of maximal end_time. -/
theorem pickLatest_le : ∀ {l : List Trajectory} {tr : Trajectory},
    pickLatest l = some tr → ∀ x ∈ l, x.end_time ≤ tr.end_time := by
  intro l
  induction l with
  | nil => intro tr h; simp [pickLatest] at h
  | cons a r ih =>
    intro tr h x hx
    rcases hr : pickLatest r with _ | b
    · simp only [pickLatest, hr] at h
      cases h
      have hre : r = [] := pickLatest_eq_none.mp hr
      subst hre
      rcases List.mem_singleton.mp hx with rfl
      exact le_refl _
    · simp only [pickLatest, hr] at h
      by_cases hb : b.end_time > a.end_time
      · rw [if_pos hb] at h
        cases h
        rcases List.mem_cons.mp hx with rfl | hxr
        · exact le_of_lt hb
        · exact ih hr x hxr
      · rw [if_neg hb] at h
        cases h
        rcases List.mem_cons.mp hx with rfl | hxr
        · exact le_refl _
        · exact le_trans (ih hr x hxr) (not_lt.mp hb)

/-- C9: the segmenter extends an existing trajectory iff one of the
device's trajectories has end_time no more than one hour before the point
time, choosing a trajectory of greatest end_time; otherwise it opens a new
trajectory with start_time = end_time = ts; every append sets end_time to
ts and increments point_count by one. -/
theorem c9_segmenter_gap_rule (st : TrajStore) (d : String)
    (upd : LocationUpdate) (now : Int) :
    ((selectTrajectory st.trajectories d (effectiveTime upd now)).isSome ↔
      ∃ tr ∈ st.trajectories, tr.device_id = d ∧
        effectiveTime upd now - 3600 ≤ tr.end_time) ∧
    (∀ tr, selectTrajectory st.trajectories d (effectiveTime upd now) = some tr →
      tr ∈ st.trajectories ∧ tr.device_id = d ∧
      effectiveTime upd now - 3600 ≤ tr.end_time ∧
      (∀ tr2 ∈ st.trajectories, tr2.device_id = d →
        effectiveTime upd now - 3600 ≤ tr2.end_time →
        tr2.end_time ≤ tr.end_time) ∧
      (addTrajectoryPoint st d upd now).trajectories =
        st.trajectories.map (fun x =>
          if x.id = tr.id then applyAppend x upd (effectiveTime upd now) else x) ∧
      (applyAppend tr upd (effectiveTime upd now)).end_time = effectiveTime upd now ∧
      (applyAppend tr upd (effectiveTime upd now)).point_count = tr.point_count + 1 ∧
      (applyAppend tr upd (effectiveTime upd now)).start_time = tr.start_time) ∧
    (selectTrajectory st.trajectories d (effectiveTime upd now) = none →
      ∃ fr, (addTrajectoryPoint st d upd now).trajectories =
          st.trajectories ++ [fr] ∧
        fr.device_id = d ∧ fr.start_time = effectiveTime upd now ∧
        fr.end_time = effectiveTime upd now ∧ fr.point_count = 1 ∧
        (addTrajectoryPoint st d upd now).points =
          st.points ++ [mkTrajectoryPoint st.next_id upd (effectiveTime upd now)]) := by
  refine ⟨?_, ?_, ?_⟩
  · rw [selectTrajectory, Option.isSome_iff_ne_none, ne_eq, pickLatest_eq_none]
    constructor
    · intro hne
      obtain ⟨x, hx⟩ := List.exists_mem_of_ne_nil _ hne
      obtain ⟨hmem, hpred⟩ := List.mem_filter.mp hx
      refine ⟨x, hmem, ?_⟩
      simpa [isOpenFor, Bool.and_eq_true, beq_iff_eq, decide_eq_true_eq] using hpred
    · rintro ⟨tr, htr, hdev, hend⟩ hfil
      have hmem : tr ∈ st.trajectories.filter (isOpenFor d (effectiveTime upd now)) :=
        List.mem_filter.mpr ⟨htr, by simp [isOpenFor, hdev, hend]⟩
      rw [hfil] at hmem
      exact absurd hmem (List.not_mem_nil tr)
  · intro tr hsel
    have hmemf := pickLatest_mem hsel
    have hle := pickLatest_le hsel
    obtain ⟨htrs, hopen⟩ := List.mem_filter.mp hmemf
    have hopen2 : tr.device_id = d ∧ effectiveTime upd now - 3600 ≤ tr.end_time := by
      simpa [isOpenFor, Bool.and_eq_true, beq_iff_eq, decide_eq_true_eq] using hopen
    refine ⟨htrs, hopen2.1, hopen2.2, ?_, ?_, rfl, rfl, rfl⟩
    · intro tr2 h2 hdev2 hend2
      exact hle tr2 (List.mem_filter.mpr ⟨h2, by simp [isOpenFor, hdev2, hend2]⟩)
    · simp only [addTrajectoryPoint, hsel]
  · intro hsel
    refine ⟨applyAppend
      { id := st.next_id, device_id := d, start_time := effectiveTime upd now,
        end_time := effectiveTime upd now, point_count := 0,
        total_distance := none, avg_speed := none, max_speed := none }
      upd (effectiveTime upd now), ?_, rfl, rfl, rfl, rfl, ?_⟩
    · simp only [addTrajectoryPoint, hsel]
    · simp only [addTrajectoryPoint, hsel]

/-- Witness for c9_segmenter_gap_rule: at second 600 the segmenter picks
demoTraj (end_time 500) over demoTraj2 (end_time 400). -/
theorem c9_gap_rule_witness : demoTraj2.end_time ≤ demoTraj.end_time :=
  (((c9_segmenter_gap_rule demoStore devOne demoUpd 0).2.1 demoTraj
      (by decide)).2.2.2.1) demoTraj2 (by decide) (by decide) (by decide)

/-- Helper: under the invariant, the code's prune of the sorted set equals
the spec's window filter of the log. -/
theorem prune_eq_filter {log : Finset Int} {T now : Int}
    (hbound : ∀ t ∈ log, 0 ≤ t ∧ t ≤ T) :
    zremRangeByScore 0 (now - windowSize) log =
      log.filter (fun t => now - 60 < t) := by
  ext x
  simp only [zremRangeByScore, windowSize, Finset.mem_filter]
  constructor
  · rintro ⟨hx, hc⟩
    have := hbound x hx
    exact ⟨hx, by omega⟩
  · rintro ⟨hx, hc⟩
    have := hbound x hx
    exact ⟨hx, by omega⟩

/-- Helper: over any chronologically ordered request sequence, the
decisions of the code's Redis limiter coincide with the decisions of the
spec's single 60-second sliding window at the same limit. -/
theorem run_decisions_eq (limit : Int) :
    ∀ (reqs : List Int) (st log : Finset Int) (T : Int),
      LimiterInv st log T → List.Chain' (· ≤ ·) (T :: reqs) →
      runRedisDecisions limit st reqs = runSlidingWindowDecisions limit log reqs := by
  intro reqs
  induction reqs with
  | nil => intro st log T _ _; rfl
  | cons now rest ih =>
    intro st log T hinv hchain
    obtain ⟨hT0, rfl, hbound⟩ := hinv
    have hTn : T ≤ now := (List.chain'_cons.mp hchain).1
    have hchain2 := (List.chain'_cons.mp hchain).2
    have hprune : zremRangeByScore 0 (now - windowSize) st =
        st.filter (fun t => now - 60 < t) := prune_eq_filter hbound
    simp only [runRedisDecisions, runSlidingWindowDecisions, isAllowed,
      slidingWindowStep]
    rw [hprune]
    by_cases hc : ((st.filter (fun t => now - 60 < t)).card : Int) < limit
    · rw [if_neg (not_le.mpr hc), if_pos hc]
      refine congrArg (List.cons true) (ih _ _ now ⟨by omega, rfl, ?_⟩ hchain2)
      intro t ht
      rcases Finset.mem_insert.mp ht with rfl | htf
      · omega
      · have := hbound t (Finset.mem_filter.mp htf).1
        omega
    · rw [if_pos (not_lt.mp hc), if_neg hc]
      refine congrArg (List.cons false) (ih _ _ now ⟨by omega, rfl, ?_⟩ hchain2)
      intro t ht
      have := hbound t (Finset.mem_filter.mp ht).1
      omega

/-- C6 counterexample: on sixty-one requests (seconds 0..59 and a second
request at second 59) the admission path — the sliding-window limiter at
the configured limit of 60 per minute — denies the last request, while the
spec's three-window tier policy for a basic-tier identifier (300/minute,
10000/hour, 100000/day) admits all of them: admission control does not
implement the three tier-limited windows. -/
theorem c6_counterexample :
    runRedisDecisions 60 ∅ c6History ≠
      runThreeWindowDecisions basicTierLimits ∅ c6History := by decide

/-- C6 amended: for every chronologically ordered request sequence the
admission decisions equal those of a single 60-second sliding window per
identifier at the configured per-minute limit: prune entries older than
the window start, admit iff the current count is below the limit. -/
theorem c6_single_window_refinement (limit : Int) (reqs : List Int)
    (hchain : List.Chain' (· ≤ ·) ((0 : Int) :: reqs)) :
    runRedisDecisions limit ∅ reqs = runSlidingWindowDecisions limit ∅ reqs :=
  run_decisions_eq limit reqs ∅ ∅ 0 ⟨le_refl 0, rfl, by simp⟩ hchain

/-- Witness for c6_single_window_refinement on a concrete ordered
sequence. -/
theorem c6_refinement_witness :
    runRedisDecisions 2 ∅ [0, 30, 70] = runSlidingWindowDecisions 2 ∅ [0, 30, 70] :=
  c6_single_window_refinement 2 [0, 30, 70]
    (by simp [List.chain'_cons, List.chain'_singleton])

end GeoAPI
